import Mathlib

/-!
Verification of the agent-orchestra-trace state store and simulation routine.

The development shallowly embeds the `AgentService` class of
`src/services/agentService` (the full variant, with the four collections,
the single-flight flag and the callback list), together with the agent-name
mapping functions of the adapters and the reconnect scheduling of the
AutoGen adapter's push channel.

Modelling conventions:
- `uuidv4()` and `new Date()` are modelled by one monotone counter
  `nextId` held in the state: every created record receives the current
  counter value as both its id and its timestamp, and the counter is
  incremented.  This is faithful to freshness of uuids and to strict
  monotonicity of wall-clock timestamps across the `await delay(ms)`
  suspension points that separate record creations.
- `await delay(ms)` performs no state change and is dropped.
- Update callbacks are modelled as identified records (`Callback`): the id
  plays the role of the function reference (TS `filter (cb !== callback)`
  removes all occurrences of one reference), and the effect field models
  what the subscriber does when invoked: either nothing, or unregistering
  a callback (the re-entrant case the specification discusses).  An
  invocation log (`log`) records, in order, the ids of invoked callbacks.
- `triggerUpdate` is `this.onUpdateCallbacks.forEach(cb => cb())`.
  In JS, `unregisterUpdateCallback` REASSIGNS the field to a new filtered
  array, so a `forEach` already in progress keeps iterating the array it
  captured.  This is modelled by folding over the captured list while the
  state's callback list evolves.
- Thrown exceptions are modelled by an `Option String` error component:
  a body returning `(s, some msg)` models code that threw `msg` after
  having driven the state to `s` (no rollback happens in the source).
-/

namespace AgentOrchestra

/-- Message type tag: 'request' | 'response' | 'internal'. -/
inductive MessageType where
  | request
  | response
  | internal
deriving DecidableEq, Repr

/-- AgentTask status: 'pending' | 'in-progress' | 'completed' | 'failed'. -/
inductive TaskStatus where
  | pending
  | inProgress
  | completed
  | failed
deriving DecidableEq, Repr

/-- UserRequest status: 'processing' | 'completed' | 'failed'. -/
inductive ReqStatus where
  | processing
  | completed
  | failed
deriving DecidableEq, Repr

/-- The `Message` record of `types/agent.ts` (`from` is a Lean keyword,
hence `from_`).  Ids and timestamps are counter values, see above. -/
structure Message where
  id : Nat
  from_ : String
  to_ : String
  content : String
  timestamp : Nat
  type : MessageType
deriving DecidableEq, Repr

/-- The `Trace` record of `types/agent.ts`. -/
structure Trace where
  id : Nat
  agentId : String
  action : String
  details : String
  timestamp : Nat
  relatedMessageIds : List Nat
deriving DecidableEq, Repr

/-- The `AgentTask` record of `types/agent.ts`.  `statusLog` is a ghost
history field used only to state lifecycle properties: it records every
value the `status` field has taken, in order.  It influences nothing. -/
structure AgentTask where
  id : Nat
  assignedTo : String
  description : String
  status : TaskStatus
  createdAt : Nat
  completedAt : Option Nat
  result : Option String
  parentTaskId : Option Nat
  statusLog : List TaskStatus
deriving DecidableEq, Repr

/-- The `UserRequest` record of `types/agent.ts`. -/
structure UserRequest where
  id : Nat
  content : String
  timestamp : Nat
  status : ReqStatus
  result : Option String
deriving DecidableEq, Repr

/-- What a registered update callback does when invoked: nothing, or
unregister the callback with the given id (the re-entrant case). -/
inductive CbEffect where
  | pure
  | unreg (target : Nat)
deriving DecidableEq, Repr

/-- A registered update callback: the id stands for the JS function
reference, the effect for its behaviour when invoked. -/
structure Callback where
  id : Nat
  eff : CbEffect
deriving DecidableEq, Repr

/-- The mutable fields of the `AgentService` class.  `nextId` is the
uuid/clock counter; `log` is the ghost invocation log of callback ids. -/
structure AgentState where
  messages : List Message
  traces : List Trace
  tasks : List AgentTask
  userRequests : List UserRequest
  processingRequest : Bool
  onUpdateCallbacks : List Callback
  nextId : Nat
  log : List Nat
deriving DecidableEq, Repr

/-- `registerUpdateCallback`: `this.onUpdateCallbacks.push(callback)`. -/
def registerUpdateCallback (s : AgentState) (cb : Callback) : AgentState :=
  { s with onUpdateCallbacks := s.onUpdateCallbacks ++ [cb] }

/-- `unregisterUpdateCallback`:
`this.onUpdateCallbacks = this.onUpdateCallbacks.filter(cb => cb !== callback)`.
Reference comparison is id comparison in the model. -/
def unregisterUpdateCallback (s : AgentState) (f : Nat) : AgentState :=
  { s with onUpdateCallbacks := s.onUpdateCallbacks.filter (fun cb => cb.id ≠ f) }

/-- One callback invocation: the id is appended to the invocation log and
the callback's effect is applied to the current state. -/
def runCb (s : AgentState) (cb : Callback) : AgentState :=
  let s1 := { s with log := s.log ++ [cb.id] }
  match cb.eff with
  | CbEffect.pure => s1
  | CbEffect.unreg f => unregisterUpdateCallback s1 f

/-- `triggerUpdate`: `this.onUpdateCallbacks.forEach(cb => cb())`.
`forEach` iterates the array captured at entry; re-entrant unregistration
replaces the field with a new array and does not affect the iteration. -/
def triggerUpdate (s : AgentState) : AgentState :=
  s.onUpdateCallbacks.foldl runCb s

/-- `addMessage`: create the record, push it, notify; returns the new
state and the created message (the source returns the message). -/
def addMessage (s : AgentState) (from_ to_ content : String) (type : MessageType) :
    AgentState × Message :=
  let message : Message :=
    { id := s.nextId, from_ := from_, to_ := to_, content := content,
      timestamp := s.nextId, type := type }
  (triggerUpdate { s with messages := s.messages ++ [message], nextId := s.nextId + 1 },
   message)

/-- `addTrace`: create the record, push it, notify. -/
def addTrace (s : AgentState) (agentId action details : String)
    (relatedMessageIds : List Nat) : AgentState × Trace :=
  let trace : Trace :=
    { id := s.nextId, agentId := agentId, action := action, details := details,
      timestamp := s.nextId, relatedMessageIds := relatedMessageIds }
  (triggerUpdate { s with traces := s.traces ++ [trace], nextId := s.nextId + 1 },
   trace)

/-- `addTask`: create the record with status 'pending', push it, notify. -/
def addTask (s : AgentState) (assignedTo description : String)
    (parentTaskId : Option Nat) : AgentState × AgentTask :=
  let task : AgentTask :=
    { id := s.nextId, assignedTo := assignedTo, description := description,
      status := TaskStatus.pending, createdAt := s.nextId, completedAt := none,
      result := none, parentTaskId := parentTaskId,
      statusLog := [TaskStatus.pending] }
  (triggerUpdate { s with tasks := s.tasks ++ [task], nextId := s.nextId + 1 },
   task)

/-- The `Partial<AgentTask>` argument of `updateTask`: the fields the call
sites ever pass. -/
structure TaskUpdate where
  status : Option TaskStatus := none
  completedAt : Option Nat := none
  result : Option String := none
deriving DecidableEq, Repr

/-- The object spread `{ ...task, ...updates }`: a field present in the
update overrides the task's field.  The ghost `statusLog` records the new
status when one is written. -/
def applyUpdate (t : AgentTask) (u : TaskUpdate) : AgentTask :=
  { t with
    status := u.status.getD t.status,
    completedAt := match u.completedAt with
      | some c => some c
      | none => t.completedAt,
    result := match u.result with
      | some r => some r
      | none => t.result,
    statusLog := match u.status with
      | some st => t.statusLog ++ [st]
      | none => t.statusLog }

/-- Replace the first task whose id matches (the semantics of
`findIndex` followed by an indexed write). -/
def setFirstTask (ts : List AgentTask) (taskId : Nat) (u : TaskUpdate) :
    List AgentTask :=
  match ts with
  | [] => []
  | t :: rest =>
      if t.id = taskId then applyUpdate t u :: rest
      else t :: setFirstTask rest taskId u

/-- `updateTask`: `findIndex`; if found, overwrite that entry with the
spread-merged record and notify; if not found, do nothing at all. -/
def updateTask (s : AgentState) (taskId : Nat) (u : TaskUpdate) : AgentState :=
  if s.tasks.any (fun t => t.id = taskId) then
    triggerUpdate { s with tasks := setFirstTask s.tasks taskId u }
  else
    s

/-- `clearData`: reset the four collections and the flag, then notify. -/
def clearData (s : AgentState) : AgentState :=
  triggerUpdate
    { s with messages := [], traces := [], tasks := [], userRequests := [],
             processingRequest := false }

/-- The `researchResults` template of the native path. -/
def researchResultsText (userRequest : String) : String :=
  "Research findings for \"" ++ userRequest ++ "\":\n" ++
    "- Found relevant data point 1\n" ++
    "- Found relevant insight 2\n" ++
    "- Discovered related concept 3"

/-- The `plan` template of the native path. -/
def planText (userRequest : String) : String :=
  "Plan for \"" ++ userRequest ++ "\":\n" ++
    "1. First action item\n" ++
    "2. Second action item\n" ++
    "3. Integration steps\n" ++
    "4. Final compilation"

/-- The `executionResult` template of the native path. -/
def executionResultText (userRequest : String) : String :=
  "Final solution for \"" ++ userRequest ++ "\":\n\n" ++
    "Based on our comprehensive analysis, here is your solution:\n\n" ++
    "1. Key finding: [Details from research]\n" ++
    "2. Recommended approach: [Strategy from plan]\n" ++
    "3. Implementation steps: [Actionable steps]\n\n" ++
    "This solution integrates all relevant factors and provides a complete response to your request."

/-- `simulateAgentCollaboration` (the native path), with the `await delay`
calls dropped.  String literals are those of the source; `new Date()` in a
task completion update is the current clock value `s.nextId`. -/
def simulateAgentCollaboration (s : AgentState) (userRequest : String) : AgentState :=
  let s := (addTrace s "coordinator-1" "analyzing_request"
    "Breaking down user request into subtasks" []).1
  let pR := addTask s "researcher-1" "Gather necessary information based on user query" none
  let s := pR.1
  let researchTask := pR.2
  let s := (addMessage s "coordinator-1" "researcher-1"
    ("Please research the following query and gather relevant information: \"" ++
      userRequest ++ "\"") MessageType.internal).1
  let s := (addTrace s "researcher-1" "research_started" "Beginning information gathering"
    [researchTask.id]).1
  let s := updateTask s researchTask.id { status := some TaskStatus.inProgress }
  let researchResults := researchResultsText userRequest
  let s := (addTrace s "researcher-1" "research_completed" "Completed information gathering"
    [researchTask.id]).1
  let s := updateTask s researchTask.id
    { status := some TaskStatus.completed, completedAt := some s.nextId,
      result := some researchResults }
  let s := (addMessage s "researcher-1" "coordinator-1" researchResults
    MessageType.internal).1
  let pP := addTask s "planner-1" "Create execution plan based on research findings" none
  let s := pP.1
  let planningTask := pP.2
  let s := (addMessage s "coordinator-1" "planner-1"
    ("Please create an execution plan based on this research: " ++ researchResults)
    MessageType.internal).1
  let s := (addTrace s "planner-1" "planning_started" "Creating execution plan"
    [planningTask.id]).1
  let s := updateTask s planningTask.id { status := some TaskStatus.inProgress }
  let plan := planText userRequest
  let s := (addTrace s "planner-1" "planning_completed" "Completed execution plan"
    [planningTask.id]).1
  let s := updateTask s planningTask.id
    { status := some TaskStatus.completed, completedAt := some s.nextId,
      result := some plan }
  let s := (addMessage s "planner-1" "coordinator-1" plan MessageType.internal).1
  let pE := addTask s "executor-1" "Execute plan and generate final response" none
  let s := pE.1
  let executionTask := pE.2
  let s := (addMessage s "coordinator-1" "executor-1"
    ("Please execute this plan and generate a final response: " ++ plan)
    MessageType.internal).1
  let s := (addTrace s "executor-1" "execution_started" "Implementing solution"
    [executionTask.id]).1
  let s := updateTask s executionTask.id { status := some TaskStatus.inProgress }
  let executionResult := executionResultText userRequest
  let s := (addTrace s "executor-1" "execution_completed" "Completed implementation"
    [executionTask.id]).1
  let s := updateTask s executionTask.id
    { status := some TaskStatus.completed, completedAt := some s.nextId,
      result := some executionResult }
  let s := (addMessage s "executor-1" "coordinator-1" executionResult
    MessageType.internal).1
  let s := (addTrace s "coordinator-1" "reviewing_solution"
    "Reviewing and finalizing solution" []).1
  let s := (addTrace s "coordinator-1" "solution_approved" "Approved final solution" []).1
  let s := (addMessage s "coordinator-1" "executor-1"
    "Solution approved. Please deliver to user." MessageType.internal).1
  let s := (addMessage s "executor-1" "user" executionResult MessageType.response).1
  let s := (addTrace s "executor-1" "response_delivered" "Final response delivered to user" []).1
  s

/-- The filter `m.to === 'user' && m.type === 'response'`. -/
def isUserResponse (m : Message) : Bool :=
  m.to_ = "user" && m.type = MessageType.response

/-- The first element of maximal timestamp: the value of
`.sort((a, b) => b.timestamp - a.timestamp)[0]` (the sort is stable, so
ties keep their original order and the earliest maximal element wins). -/
def maxByTimestamp (acc : Option Message) (ms : List Message) : Option Message :=
  match ms with
  | [] => acc
  | m :: rest =>
      match acc with
      | none => maxByTimestamp (some m) rest
      | some a =>
          if a.timestamp < m.timestamp then maxByTimestamp (some m) rest
          else maxByTimestamp (some a) rest

/-- `this.messages.filter(m => m.to === 'user' && m.type === 'response')
.sort((a, b) => b.timestamp - a.timestamp)[0]`. -/
def findFinalResponse (ms : List Message) : Option Message :=
  maxByTimestamp none (ms.filter isUserResponse)

/-- Overwrite status (and, when given, result) of the first user request
whose id matches (`findIndex` + indexed writes on the found entry). -/
def setFirstRequest (rs : List UserRequest) (reqId : Nat) (status : ReqStatus)
    (result : Option String) : List UserRequest :=
  match rs with
  | [] => []
  | r :: rest =>
      if r.id = reqId then
        { r with status := status,
                 result := (match result with
                   | some x => some x
                   | none => r.result) } :: rest
      else r :: setFirstRequest rest reqId status result

/-- The success epilogue of `submitUserRequest`: mark the request
'completed' and, when a final user-bound response message exists, store
its content as the result.  No notification happens here (the source
notifies only in the `finally` block). -/
def markRequestCompleted (s : AgentState) (reqId : Nat) : AgentState :=
  if s.userRequests.any (fun r => r.id = reqId) then
    { s with userRequests :=
        (setFirstRequest s.userRequests reqId ReqStatus.completed
          ((findFinalResponse s.messages).map Message.content)) }
  else s

/-- The catch block of `submitUserRequest`: mark the request 'failed' and
store `"Error: " ++ message` as the result. -/
def markRequestFailed (s : AgentState) (reqId : Nat) (msg : String) : AgentState :=
  if s.userRequests.any (fun r => r.id = reqId) then
    { s with userRequests :=
        (setFirstRequest s.userRequests reqId ReqStatus.failed
          (some ("Error: " ++ msg))) }
  else s

/-- The state the framework body receives: flag raised, fresh request
pushed, subscribers notified. -/
def stateAfterAccept (s : AgentState) (content : String) : AgentState :=
  triggerUpdate
    { s with processingRequest := true,
             userRequests := s.userRequests ++
               [{ id := s.nextId, content := content, timestamp := s.nextId,
                  status := ReqStatus.processing, result := none }],
             nextId := s.nextId + 1 }

/-- `submitUserRequest` with the framework-dispatched try-block body
abstracted.  The body receives the state after the guard, the request
push and the notification; it returns the state it reached together with
`some msg` when it threw `msg` (no rollback: that state stands).  The
call rejects (`Except.error`) only on the single-flight guard; otherwise
it resolves with the (aliased, hence final) request record. -/
def submitUserRequestWith (body : AgentState → AgentState × Option String)
    (s : AgentState) (content : String) : AgentState × Except String UserRequest :=
  if s.processingRequest then
    (s, Except.error "Already processing a request. Please wait for completion.")
  else
    let req : UserRequest :=
      { id := s.nextId, content := content, timestamp := s.nextId,
        status := ReqStatus.processing, result := none }
    let pr := body (stateAfterAccept s content)
    let s3 := match pr.2 with
      | none => markRequestCompleted pr.1 req.id
      | some msg => markRequestFailed pr.1 req.id msg
    let s4 := triggerUpdate { s3 with processingRequest := false }
    (s4, Except.ok ((s4.userRequests.find? (fun r => r.id = req.id)).getD req))

/-- The else-branch of the try block: the native path (taken when
`activeFramework` is 'native').  It records the user message and the
'received_request' trace, then runs the simulation; it never throws. -/
def nativeBody (content : String) (s : AgentState) : AgentState × Option String :=
  let s := (addMessage s "user" "coordinator-1" content MessageType.request).1
  let s := (addTrace s "coordinator-1" "received_request"
    ("User requested: " ++ content) []).1
  (simulateAgentCollaboration s content, none)

/-- `submitUserRequest` on the native path. -/
def submitUserRequest (s : AgentState) (content : String) :
    AgentState × Except String UserRequest :=
  submitUserRequestWith (nativeBody content) s content

/-- `AgentService.convertAutoGenAgentToId`: static name table with
verbatim pass-through default. -/
def convertAutoGenAgentToId (agentName : String) : String :=
  if agentName = "UserProxyAgent" then "coordinator-1"
  else if agentName = "ResearchAssistant" then "researcher-1"
  else if agentName = "PlanningAgent" then "planner-1"
  else if agentName = "ExecutionAgent" then "executor-1"
  else if agentName = "user" then "user"
  else agentName

/-- `AgentService.convertRasaAgentToId`: static name table with verbatim
pass-through default. -/
def convertRasaAgentToId (agentName : String) : String :=
  if agentName = "CoordinatorAgent" then "coordinator-1"
  else if agentName = "ResearchAgent" then "researcher-1"
  else if agentName = "PlannerAgent" then "planner-1"
  else if agentName = "ExecutionAgent" then "executor-1"
  else if agentName = "user" then "user"
  else agentName

/-- `RasaAdapter.getAgentIdByRole`: static role table whose default branch
returns 'coordinator-1' (NOT the input). -/
def getAgentIdByRole (role : String) : String :=
  if role = "coordinator" then "coordinator-1"
  else if role = "researcher" then "researcher-1"
  else if role = "planner" then "planner-1"
  else if role = "executor" then "executor-1"
  else "coordinator-1"

/-- The reconnect bookkeeping of `AutoGenAdapter` (fields
`reconnectAttempts` and `maxReconnectAttempts`). -/
structure ReconnectState where
  reconnectAttempts : Nat
  maxReconnectAttempts : Nat
deriving DecidableEq, Repr

/-- The `onclose` handler of `AutoGenAdapter.connectWebSocket`: while
below the attempt bound, increment the counter and schedule a reconnect
after `Math.min(1000 * Math.pow(2, attempts), 30000)` ms; once the bound
is reached, schedule nothing. -/
def onCloseReconnect (st : ReconnectState) : Option (ReconnectState × Nat) :=
  if st.reconnectAttempts < st.maxReconnectAttempts then
    let attempts := st.reconnectAttempts + 1
    some ({ st with reconnectAttempts := attempts }, min (1000 * 2 ^ attempts) 30000)
  else none

/-- Fresh adapter state: `reconnectAttempts = 0`, `maxReconnectAttempts = 5`. -/
def initialReconnectState : ReconnectState :=
  { reconnectAttempts := 0, maxReconnectAttempts := 5 }

/-- The `onclose` handler of the legacy adapter variant (the unnamed
duplicate source file): always schedules a reconnect after 5000 ms,
without any bound. -/
def onCloseReconnectLegacy (st : ReconnectState) : Option (ReconnectState × Nat) :=
  some (st, 5000)

/-- Adapter state and accumulated scheduled delays after `n` consecutive
connection drops starting from `st`. -/
def dropsFrom (st : ReconnectState) : Nat → ReconnectState × List Nat
  | 0 => (st, [])
  | n + 1 =>
      match dropsFrom st n with
      | (cur, ds) =>
          match onCloseReconnect cur with
          | some (nxt, d) => (nxt, ds ++ [d])
          | none => (cur, ds)

/-- The store state at module load: empty collections, flag down. -/
def emptyState : AgentState :=
  { messages := [], traces := [], tasks := [], userRequests := [],
    processingRequest := false, onUpdateCallbacks := [], nextId := 0, log := [] }

/-- `emptyState` with the processing flag raised (a call in flight). -/
def busyState : AgentState :=
  { emptyState with processingRequest := true }

/-- Every id and timestamp held in the collections lies below the
counter: the invariant the uuid/clock counter maintains across runs. -/
def FreshState (s : AgentState) : Prop :=
  (∀ m ∈ s.messages, m.timestamp < s.nextId) ∧
  (∀ t ∈ s.tasks, t.id < s.nextId) ∧
  (∀ r ∈ s.userRequests, r.id < s.nextId)

/-- Callback 1 unregisters callback 2 when invoked; callback 2 is inert. -/
def cbUnregPair : List Callback :=
  [⟨1, CbEffect.unreg 2⟩, ⟨2, CbEffect.pure⟩]

/-- A state with `cbUnregPair` registered. -/
def cbPairState : AgentState :=
  { emptyState with onUpdateCallbacks := cbUnregPair }

/-- A state holding one pending task with id 7 and one inert callback. -/
def oneTaskState : AgentState :=
  { emptyState with
    tasks := [{ id := 7, assignedTo := "researcher-1",
                description := "Gather necessary information based on user query",
                status := TaskStatus.pending, createdAt := 7, completedAt := none,
                result := none, parentTaskId := none,
                statusLog := [TaskStatus.pending] }],
    nextId := 8,
    onUpdateCallbacks := [⟨1, CbEffect.pure⟩] }

/-- A framework body that appends one message and then throws. -/
def throwingBody (s : AgentState) : AgentState × Option String :=
  ((addMessage s "user" "coordinator-1" "x" MessageType.request).1,
   some "AutoGen error: Unknown error")

/-- The state `throwingBody` has reached at the moment it throws, when
run from the empty store on the request text 'hi'. -/
def throwSite : AgentState :=
  (addMessage (stateAfterAccept emptyState "hi") "user" "coordinator-1" "x"
    MessageType.request).1

/-! ### Framing lemmas

A callback invocation touches only the callback list and the invocation
log; notification therefore never changes the four collections, the flag
or the counter. -/

theorem runCb_messages (s : AgentState) (cb : Callback) :
    (runCb s cb).messages = s.messages := by
  cases cb with
  | mk i e => cases e <;> rfl

theorem runCb_traces (s : AgentState) (cb : Callback) :
    (runCb s cb).traces = s.traces := by
  cases cb with
  | mk i e => cases e <;> rfl

theorem runCb_tasks (s : AgentState) (cb : Callback) :
    (runCb s cb).tasks = s.tasks := by
  cases cb with
  | mk i e => cases e <;> rfl

theorem runCb_userRequests (s : AgentState) (cb : Callback) :
    (runCb s cb).userRequests = s.userRequests := by
  cases cb with
  | mk i e => cases e <;> rfl

theorem runCb_processingRequest (s : AgentState) (cb : Callback) :
    (runCb s cb).processingRequest = s.processingRequest := by
  cases cb with
  | mk i e => cases e <;> rfl

theorem runCb_nextId (s : AgentState) (cb : Callback) :
    (runCb s cb).nextId = s.nextId := by
  cases cb with
  | mk i e => cases e <;> rfl

theorem runCb_log (s : AgentState) (cb : Callback) :
    (runCb s cb).log = s.log ++ [cb.id] := by
  cases cb with
  | mk i e => cases e <;> rfl

theorem foldl_runCb_messages (cbs : List Callback) :
    ∀ s : AgentState, (List.foldl runCb s cbs).messages = s.messages := by
  induction cbs with
  | nil => intro s; rfl
  | cons c cs ih => intro s; rw [List.foldl_cons, ih, runCb_messages]

theorem foldl_runCb_traces (cbs : List Callback) :
    ∀ s : AgentState, (List.foldl runCb s cbs).traces = s.traces := by
  induction cbs with
  | nil => intro s; rfl
  | cons c cs ih => intro s; rw [List.foldl_cons, ih, runCb_traces]

theorem foldl_runCb_tasks (cbs : List Callback) :
    ∀ s : AgentState, (List.foldl runCb s cbs).tasks = s.tasks := by
  induction cbs with
  | nil => intro s; rfl
  | cons c cs ih => intro s; rw [List.foldl_cons, ih, runCb_tasks]

theorem foldl_runCb_userRequests (cbs : List Callback) :
    ∀ s : AgentState, (List.foldl runCb s cbs).userRequests = s.userRequests := by
  induction cbs with
  | nil => intro s; rfl
  | cons c cs ih => intro s; rw [List.foldl_cons, ih, runCb_userRequests]

theorem foldl_runCb_processingRequest (cbs : List Callback) :
    ∀ s : AgentState, (List.foldl runCb s cbs).processingRequest = s.processingRequest := by
  induction cbs with
  | nil => intro s; rfl
  | cons c cs ih => intro s; rw [List.foldl_cons, ih, runCb_processingRequest]

theorem foldl_runCb_nextId (cbs : List Callback) :
    ∀ s : AgentState, (List.foldl runCb s cbs).nextId = s.nextId := by
  induction cbs with
  | nil => intro s; rfl
  | cons c cs ih => intro s; rw [List.foldl_cons, ih, runCb_nextId]

theorem foldl_runCb_log (cbs : List Callback) :
    ∀ s : AgentState, (List.foldl runCb s cbs).log = s.log ++ cbs.map Callback.id := by
  induction cbs with
  | nil => intro s; simp
  | cons c cs ih => intro s; rw [List.foldl_cons, ih, runCb_log]; simp

@[simp]
theorem triggerUpdate_messages (s : AgentState) :
    (triggerUpdate s).messages = s.messages :=
  foldl_runCb_messages s.onUpdateCallbacks s

@[simp]
theorem triggerUpdate_traces (s : AgentState) :
    (triggerUpdate s).traces = s.traces :=
  foldl_runCb_traces s.onUpdateCallbacks s

@[simp]
theorem triggerUpdate_tasks (s : AgentState) :
    (triggerUpdate s).tasks = s.tasks :=
  foldl_runCb_tasks s.onUpdateCallbacks s

@[simp]
theorem triggerUpdate_userRequests (s : AgentState) :
    (triggerUpdate s).userRequests = s.userRequests :=
  foldl_runCb_userRequests s.onUpdateCallbacks s

@[simp]
theorem triggerUpdate_processingRequest (s : AgentState) :
    (triggerUpdate s).processingRequest = s.processingRequest :=
  foldl_runCb_processingRequest s.onUpdateCallbacks s

@[simp]
theorem triggerUpdate_nextId (s : AgentState) :
    (triggerUpdate s).nextId = s.nextId :=
  foldl_runCb_nextId s.onUpdateCallbacks s

theorem triggerUpdate_log (s : AgentState) :
    (triggerUpdate s).log = s.log ++ s.onUpdateCallbacks.map Callback.id :=
  foldl_runCb_log s.onUpdateCallbacks s

@[simp]
theorem updateTask_messages (s : AgentState) (i : Nat) (u : TaskUpdate) :
    (updateTask s i u).messages = s.messages := by
  unfold updateTask; split <;> simp

@[simp]
theorem updateTask_traces (s : AgentState) (i : Nat) (u : TaskUpdate) :
    (updateTask s i u).traces = s.traces := by
  unfold updateTask; split <;> simp

@[simp]
theorem updateTask_userRequests (s : AgentState) (i : Nat) (u : TaskUpdate) :
    (updateTask s i u).userRequests = s.userRequests := by
  unfold updateTask; split <;> simp

@[simp]
theorem updateTask_processingRequest (s : AgentState) (i : Nat) (u : TaskUpdate) :
    (updateTask s i u).processingRequest = s.processingRequest := by
  unfold updateTask; split <;> simp

@[simp]
theorem updateTask_nextId (s : AgentState) (i : Nat) (u : TaskUpdate) :
    (updateTask s i u).nextId = s.nextId := by
  unfold updateTask; split <;> simp

@[simp]
theorem markRequestCompleted_messages (s : AgentState) (i : Nat) :
    (markRequestCompleted s i).messages = s.messages := by
  unfold markRequestCompleted; split <;> rfl

@[simp]
theorem markRequestCompleted_traces (s : AgentState) (i : Nat) :
    (markRequestCompleted s i).traces = s.traces := by
  unfold markRequestCompleted; split <;> rfl

@[simp]
theorem markRequestCompleted_tasks (s : AgentState) (i : Nat) :
    (markRequestCompleted s i).tasks = s.tasks := by
  unfold markRequestCompleted; split <;> rfl

@[simp]
theorem markRequestCompleted_onUpdateCallbacks (s : AgentState) (i : Nat) :
    (markRequestCompleted s i).onUpdateCallbacks = s.onUpdateCallbacks := by
  unfold markRequestCompleted; split <;> rfl

@[simp]
theorem markRequestCompleted_nextId (s : AgentState) (i : Nat) :
    (markRequestCompleted s i).nextId = s.nextId := by
  unfold markRequestCompleted; split <;> rfl

@[simp]
theorem markRequestFailed_messages (s : AgentState) (i : Nat) (msg : String) :
    (markRequestFailed s i msg).messages = s.messages := by
  unfold markRequestFailed; split <;> rfl

@[simp]
theorem markRequestFailed_traces (s : AgentState) (i : Nat) (msg : String) :
    (markRequestFailed s i msg).traces = s.traces := by
  unfold markRequestFailed; split <;> rfl

@[simp]
theorem markRequestFailed_tasks (s : AgentState) (i : Nat) (msg : String) :
    (markRequestFailed s i msg).tasks = s.tasks := by
  unfold markRequestFailed; split <;> rfl

@[simp]
theorem markRequestFailed_onUpdateCallbacks (s : AgentState) (i : Nat) (msg : String) :
    (markRequestFailed s i msg).onUpdateCallbacks = s.onUpdateCallbacks := by
  unfold markRequestFailed; split <;> rfl

@[simp]
theorem markRequestFailed_nextId (s : AgentState) (i : Nat) (msg : String) :
    (markRequestFailed s i msg).nextId = s.nextId := by
  unfold markRequestFailed; split <;> rfl

/-! ### First-match updates on lists

`setFirstTask`/`setFirstRequest` rebuild the list unchanged when no
element carries the id, so the conditional found-checks of `updateTask`
and the request epilogues disappear at the list level. -/

theorem setFirstTask_eq_of_not_found (ts : List AgentTask) (i : Nat) (u : TaskUpdate)
    (h : ts.any (fun t => t.id = i) = false) :
    setFirstTask ts i u = ts := by
  induction ts with
  | nil => rfl
  | cons t ts ih =>
      have hh := List.any_eq_false.mp h
      have ht : ¬ t.id = i := by
        simpa using hh t (List.mem_cons_self t ts)
      have hrest : ts.any (fun t => t.id = i) = false := by
        rw [List.any_eq_false]
        intro x hx
        exact hh x (List.mem_cons_of_mem t hx)
      simp [setFirstTask, if_neg ht, ih hrest]

theorem setFirstRequest_eq_of_not_found (rs : List UserRequest) (i : Nat)
    (st : ReqStatus) (res : Option String)
    (h : rs.any (fun r => r.id = i) = false) :
    setFirstRequest rs i st res = rs := by
  induction rs with
  | nil => rfl
  | cons r rs ih =>
      have hh := List.any_eq_false.mp h
      have hr : ¬ r.id = i := by
        simpa using hh r (List.mem_cons_self r rs)
      have hrest : rs.any (fun r => r.id = i) = false := by
        rw [List.any_eq_false]
        intro x hx
        exact hh x (List.mem_cons_of_mem r hx)
      simp [setFirstRequest, if_neg hr, ih hrest]

/-! ### Projection lemmas for the store operations

Each mutating operation is described by its effect on every projection of
the state, so that proofs about one collection never materialise the
whole state record. -/

@[simp]
theorem addMessage_fst_messages (s : AgentState) (f t c : String) (ty : MessageType) :
    ((addMessage s f t c ty).1).messages =
      s.messages ++ [Message.mk s.nextId f t c s.nextId ty] := by
  simp [addMessage]

@[simp]
theorem addMessage_fst_traces (s : AgentState) (f t c : String) (ty : MessageType) :
    ((addMessage s f t c ty).1).traces = s.traces := by
  simp [addMessage]

@[simp]
theorem addMessage_fst_tasks (s : AgentState) (f t c : String) (ty : MessageType) :
    ((addMessage s f t c ty).1).tasks = s.tasks := by
  simp [addMessage]

@[simp]
theorem addMessage_fst_userRequests (s : AgentState) (f t c : String) (ty : MessageType) :
    ((addMessage s f t c ty).1).userRequests = s.userRequests := by
  simp [addMessage]

@[simp]
theorem addMessage_fst_processingRequest (s : AgentState) (f t c : String)
    (ty : MessageType) :
    ((addMessage s f t c ty).1).processingRequest = s.processingRequest := by
  simp [addMessage]

@[simp]
theorem addMessage_fst_nextId (s : AgentState) (f t c : String) (ty : MessageType) :
    ((addMessage s f t c ty).1).nextId = s.nextId + 1 := by
  simp [addMessage]

@[simp]
theorem addMessage_snd (s : AgentState) (f t c : String) (ty : MessageType) :
    (addMessage s f t c ty).2 = Message.mk s.nextId f t c s.nextId ty := by
  simp [addMessage]

@[simp]
theorem addTrace_fst_traces (s : AgentState) (a act det : String) (rel : List Nat) :
    ((addTrace s a act det rel).1).traces =
      s.traces ++ [Trace.mk s.nextId a act det s.nextId rel] := by
  simp [addTrace]

@[simp]
theorem addTrace_fst_messages (s : AgentState) (a act det : String) (rel : List Nat) :
    ((addTrace s a act det rel).1).messages = s.messages := by
  simp [addTrace]

@[simp]
theorem addTrace_fst_tasks (s : AgentState) (a act det : String) (rel : List Nat) :
    ((addTrace s a act det rel).1).tasks = s.tasks := by
  simp [addTrace]

@[simp]
theorem addTrace_fst_userRequests (s : AgentState) (a act det : String) (rel : List Nat) :
    ((addTrace s a act det rel).1).userRequests = s.userRequests := by
  simp [addTrace]

@[simp]
theorem addTrace_fst_processingRequest (s : AgentState) (a act det : String)
    (rel : List Nat) :
    ((addTrace s a act det rel).1).processingRequest = s.processingRequest := by
  simp [addTrace]

@[simp]
theorem addTrace_fst_nextId (s : AgentState) (a act det : String) (rel : List Nat) :
    ((addTrace s a act det rel).1).nextId = s.nextId + 1 := by
  simp [addTrace]

@[simp]
theorem addTrace_snd (s : AgentState) (a act det : String) (rel : List Nat) :
    (addTrace s a act det rel).2 = Trace.mk s.nextId a act det s.nextId rel := by
  simp [addTrace]

@[simp]
theorem addTask_fst_tasks (s : AgentState) (a d : String) (p : Option Nat) :
    ((addTask s a d p).1).tasks =
      s.tasks ++ [AgentTask.mk s.nextId a d TaskStatus.pending s.nextId none none p
        [TaskStatus.pending]] := by
  simp [addTask]

@[simp]
theorem addTask_fst_messages (s : AgentState) (a d : String) (p : Option Nat) :
    ((addTask s a d p).1).messages = s.messages := by
  simp [addTask]

@[simp]
theorem addTask_fst_traces (s : AgentState) (a d : String) (p : Option Nat) :
    ((addTask s a d p).1).traces = s.traces := by
  simp [addTask]

@[simp]
theorem addTask_fst_userRequests (s : AgentState) (a d : String) (p : Option Nat) :
    ((addTask s a d p).1).userRequests = s.userRequests := by
  simp [addTask]

@[simp]
theorem addTask_fst_processingRequest (s : AgentState) (a d : String) (p : Option Nat) :
    ((addTask s a d p).1).processingRequest = s.processingRequest := by
  simp [addTask]

@[simp]
theorem addTask_fst_nextId (s : AgentState) (a d : String) (p : Option Nat) :
    ((addTask s a d p).1).nextId = s.nextId + 1 := by
  simp [addTask]

@[simp]
theorem addTask_snd (s : AgentState) (a d : String) (p : Option Nat) :
    (addTask s a d p).2 =
      AgentTask.mk s.nextId a d TaskStatus.pending s.nextId none none p
        [TaskStatus.pending] := by
  simp [addTask]

@[simp]
theorem updateTask_tasks (s : AgentState) (i : Nat) (u : TaskUpdate) :
    (updateTask s i u).tasks = setFirstTask s.tasks i u := by
  unfold updateTask
  split <;> rename_i h
  · simp
  · rw [setFirstTask_eq_of_not_found _ _ _ (by simpa using h)]

@[simp]
theorem stateAfterAccept_messages (s : AgentState) (content : String) :
    (stateAfterAccept s content).messages = s.messages := by
  simp [stateAfterAccept]

@[simp]
theorem stateAfterAccept_traces (s : AgentState) (content : String) :
    (stateAfterAccept s content).traces = s.traces := by
  simp [stateAfterAccept]

@[simp]
theorem stateAfterAccept_tasks (s : AgentState) (content : String) :
    (stateAfterAccept s content).tasks = s.tasks := by
  simp [stateAfterAccept]

@[simp]
theorem stateAfterAccept_userRequests (s : AgentState) (content : String) :
    (stateAfterAccept s content).userRequests =
      s.userRequests ++
        [UserRequest.mk s.nextId content s.nextId ReqStatus.processing none] := by
  simp [stateAfterAccept]

@[simp]
theorem stateAfterAccept_processingRequest (s : AgentState) (content : String) :
    (stateAfterAccept s content).processingRequest = true := by
  simp [stateAfterAccept]

@[simp]
theorem stateAfterAccept_nextId (s : AgentState) (content : String) :
    (stateAfterAccept s content).nextId = s.nextId + 1 := by
  simp [stateAfterAccept]

@[simp]
theorem markRequestCompleted_userRequests (s : AgentState) (i : Nat) :
    (markRequestCompleted s i).userRequests =
      setFirstRequest s.userRequests i ReqStatus.completed
        ((findFinalResponse s.messages).map Message.content) := by
  unfold markRequestCompleted
  split <;> rename_i h
  · simp
  · rw [setFirstRequest_eq_of_not_found _ _ _ _ (by simpa using h)]

@[simp]
theorem markRequestCompleted_processingRequest (s : AgentState) (i : Nat) :
    (markRequestCompleted s i).processingRequest = s.processingRequest := by
  unfold markRequestCompleted; split <;> rfl

@[simp]
theorem markRequestFailed_userRequests (s : AgentState) (i : Nat) (msg : String) :
    (markRequestFailed s i msg).userRequests =
      setFirstRequest s.userRequests i ReqStatus.failed (some ("Error: " ++ msg)) := by
  unfold markRequestFailed
  split <;> rename_i h
  · simp
  · rw [setFirstRequest_eq_of_not_found _ _ _ _ (by simpa using h)]

@[simp]
theorem markRequestFailed_processingRequest (s : AgentState) (i : Nat) (msg : String) :
    (markRequestFailed s i msg).processingRequest = s.processingRequest := by
  unfold markRequestFailed; split <;> rfl

/-! ### Helper lemmas about the first-match update and search functions -/

theorem setFirstTask_append_of_forall_ne (ts rest : List AgentTask) (i : Nat)
    (u : TaskUpdate) (h : ∀ t ∈ ts, t.id ≠ i) :
    setFirstTask (ts ++ rest) i u = ts ++ setFirstTask rest i u := by
  induction ts with
  | nil => rfl
  | cons t ts ih =>
      have ht : t.id ≠ i := h t (List.mem_cons_self t ts)
      have ih' := ih (fun t' ht' => h t' (List.mem_cons_of_mem t ht'))
      simp [setFirstTask, if_neg ht, ih']

theorem setFirstRequest_append_of_forall_ne (rs rest : List UserRequest) (i : Nat)
    (st : ReqStatus) (res : Option String) (h : ∀ r ∈ rs, r.id ≠ i) :
    setFirstRequest (rs ++ rest) i st res = rs ++ setFirstRequest rest i st res := by
  induction rs with
  | nil => rfl
  | cons r rs ih =>
      have hr : r.id ≠ i := h r (List.mem_cons_self r rs)
      have ih' := ih (fun r' hr' => h r' (List.mem_cons_of_mem r hr'))
      simp [setFirstRequest, if_neg hr, ih']

theorem setFirstRequest_exists_updated (rs : List UserRequest) (i : Nat)
    (st : ReqStatus) (res : String)
    (hfound : rs.any (fun r => r.id = i) = true) :
    ∃ r ∈ setFirstRequest rs i st (some res),
      r.id = i ∧ r.status = st ∧ r.result = some res := by
  induction rs with
  | nil => simp at hfound
  | cons r rest ih =>
      by_cases h : r.id = i
      · refine ⟨{ r with status := st, result := some res }, ?_, ?_, rfl, rfl⟩
        · simp [setFirstRequest, h]
        · simpa using h
      · have hrest : rest.any (fun r => r.id = i) = true := by
          simpa [h] using hfound
        obtain ⟨r', hmem, hprops⟩ := ih hrest
        exact ⟨r', by simp [setFirstRequest, h, hmem], hprops⟩

theorem find?_id_append_of_forall_ne (rs rest : List UserRequest) (i : Nat)
    (h : ∀ r ∈ rs, r.id ≠ i) :
    (rs ++ rest).find? (fun r => r.id = i) = rest.find? (fun r => r.id = i) := by
  induction rs with
  | nil => rfl
  | cons r rs ih =>
      have hr : r.id ≠ i := h r (List.mem_cons_self r rs)
      have ih' := ih (fun r' hr' => h r' (List.mem_cons_of_mem r hr'))
      simp only [List.cons_append, List.find?, decide_eq_false hr]
      exact ih'

theorem maxByTimestamp_append_last (ms : List Message) (m : Message) :
    ∀ acc : Option Message,
      (∀ x ∈ ms, x.timestamp < m.timestamp) →
      (∀ a, acc = some a → a.timestamp < m.timestamp) →
      maxByTimestamp acc (ms ++ [m]) = some m := by
  induction ms with
  | nil =>
      intro acc _ hacc
      cases acc with
      | none => rfl
      | some a =>
          have h := hacc a rfl
          simp only [List.nil_append, maxByTimestamp, if_pos h]
  | cons x ms ih =>
      intro acc hms hacc
      have hx : x.timestamp < m.timestamp := hms x (List.mem_cons_self x ms)
      have hms' : ∀ y ∈ ms, y.timestamp < m.timestamp :=
        fun y hy => hms y (List.mem_cons_of_mem x hy)
      cases acc with
      | none =>
          simp only [List.cons_append, maxByTimestamp]
          exact ih (some x) hms' (fun a ha => by cases ha; exact hx)
      | some a =>
          have ha : a.timestamp < m.timestamp := hacc a rfl
          simp only [List.cons_append, maxByTimestamp]
          by_cases hax : a.timestamp < x.timestamp
          · rw [if_pos hax]
            exact ih (some x) hms' (fun b hb => by cases hb; exact hx)
          · rw [if_neg hax]
            exact ih (some a) hms' (fun b hb => by cases hb; exact ha)

/-- C1: a `submitUserRequest` call made while `isProcessing()` is true
rejects immediately with the 'Already processing' error and returns the
state unchanged — all four collections and the processing flag included —
whatever framework body would have processed the request. -/
theorem submitUserRequest_single_flight
    (body : AgentState → AgentState × Option String)
    (s : AgentState) (content : String)
    (h : s.processingRequest = true) :
    submitUserRequestWith body s content =
      (s, Except.error "Already processing a request. Please wait for completion.") := by
  simp [submitUserRequestWith, h]

/-- C1 witness: the single-flight rejection at a concrete busy state. -/
theorem submitUserRequest_single_flight_witness :
    busyState.processingRequest = true ∧
    submitUserRequestWith throwingBody busyState "hello" =
      (busyState, Except.error "Already processing a request. Please wait for completion.") :=
  ⟨rfl, submitUserRequest_single_flight throwingBody busyState "hello" rfl⟩

/-- C10: `updateTask` with an id no stored task carries is a silent
no-op: the whole state — collections, flag, callback list and invocation
log — is returned unchanged, so no callback is invoked. -/
theorem updateTask_unknown_id_noop (s : AgentState) (taskId : Nat) (u : TaskUpdate)
    (h : ∀ t ∈ s.tasks, t.id ≠ taskId) :
    updateTask s taskId u = s := by
  have hne : s.tasks.any (fun t => t.id = taskId) = false := by
    rw [List.any_eq_false]
    intro t ht
    simpa using h t ht
  simp [updateTask, hne]

/-- C10 witness: updating the unknown id 99 in a one-task store returns
the state unchanged. -/
theorem updateTask_unknown_id_noop_witness :
    (∀ t ∈ oneTaskState.tasks, t.id ≠ 99) ∧
    updateTask oneTaskState 99 { status := some TaskStatus.completed } = oneTaskState :=
  ⟨by decide,
   updateTask_unknown_id_noop oneTaskState 99 { status := some TaskStatus.completed }
     (by decide)⟩

/-- C7: after `clearData` the four getters return empty collections and
`isProcessing()` is false, and the reset has invoked every registered
callback exactly once, in registration order, as the invocation log
records. -/
theorem clearData_resets (s : AgentState) :
    (clearData s).messages = [] ∧
    (clearData s).traces = [] ∧
    (clearData s).tasks = [] ∧
    (clearData s).userRequests = [] ∧
    (clearData s).processingRequest = false ∧
    (clearData s).log = s.log ++ s.onUpdateCallbacks.map Callback.id := by
  unfold clearData
  refine ⟨?_, ?_, ?_, ?_, ?_, ?_⟩ <;> simp [triggerUpdate_log]

/-- C5 counterexample: during one notification, callback 1 runs first and
unregisters callback 2 — the store's callback list then no longer holds
id 2 — yet the very same notification still invokes callback 2
(`forEach` iterates the array it captured), and so does a mutating
operation (`addMessage`): id 2 appears in the invocation log after id 1. -/
theorem unregistered_callback_invoked_in_same_notification :
    (runCb cbPairState ⟨1, CbEffect.unreg 2⟩).onUpdateCallbacks =
      [⟨1, CbEffect.unreg 2⟩] ∧
    (triggerUpdate cbPairState).log = [1, 2] ∧
    ((addMessage cbPairState "user" "coordinator-1" "hi" MessageType.request).1).log =
      [1, 2] := by
  refine ⟨by decide, by decide, by decide⟩

/-- C5 amended: one mutating operation (`addMessage`, `addTrace`,
`addTask`, or `updateTask` on a found id) invokes every registered
callback exactly once, in registration order — even when callbacks
unregister callbacks mid-notification; `unregisterUpdateCallback f`
removes every occurrence of f from the list, so a notification started
after it returns never invokes f; but a notification already in progress
when f is unregistered still invokes f in its remainder (see the
counterexample). -/
theorem notification_fidelity (s : AgentState) (f taskId : Nat)
    (sender recipient ctext aId act det desc : String) (ty : MessageType)
    (rel : List Nat) (pid : Option Nat) (u : TaskUpdate)
    (hfound : s.tasks.any (fun t => t.id = taskId) = true) :
    ((addMessage s sender recipient ctext ty).1).log =
        s.log ++ s.onUpdateCallbacks.map Callback.id ∧
    ((addTrace s aId act det rel).1).log =
        s.log ++ s.onUpdateCallbacks.map Callback.id ∧
    ((addTask s aId desc pid).1).log =
        s.log ++ s.onUpdateCallbacks.map Callback.id ∧
    (updateTask s taskId u).log =
        s.log ++ s.onUpdateCallbacks.map Callback.id ∧
    (∀ cb ∈ (unregisterUpdateCallback s f).onUpdateCallbacks, cb.id ≠ f) ∧
    f ∉ ((triggerUpdate (unregisterUpdateCallback s f)).log.drop s.log.length) := by
  refine ⟨by simp [addMessage, triggerUpdate_log], by simp [addTrace, triggerUpdate_log],
          by simp [addTask, triggerUpdate_log],
          by simp [updateTask, hfound, triggerUpdate_log], ?_, ?_⟩
  · intro cb hcb
    have := List.mem_filter.mp hcb
    simpa using this.2
  · simp only [triggerUpdate_log, unregisterUpdateCallback, List.drop_left,
               List.mem_map]
    rintro ⟨cb, hcb, hid⟩
    have := List.mem_filter.mp hcb
    simp [hid] at this

/-- C5 amended witness: the fidelity properties at a concrete one-task,
one-callback store with the found task id 7. -/
theorem notification_fidelity_witness :
    oneTaskState.tasks.any (fun t => t.id = 7) = true ∧
    (updateTask oneTaskState 7 { status := some TaskStatus.inProgress }).log =
      oneTaskState.log ++ oneTaskState.onUpdateCallbacks.map Callback.id :=
  ⟨by decide,
   (notification_fidelity oneTaskState 1 7 "user" "coordinator-1" "hi" "coordinator-1"
      "analyzing_request" "d" "desc" MessageType.request [] none
      { status := some TaskStatus.inProgress } (by decide)).2.2.2.1⟩

/-- C9 counterexample: `RasaAdapter.getAgentIdByRole` does not pass an
unmapped external name through verbatim — its default branch returns
'coordinator-1'. -/
theorem getAgentIdByRole_not_verbatim :
    getAgentIdByRole "ExternalHelper" = "coordinator-1" ∧
    getAgentIdByRole "ExternalHelper" ≠ "ExternalHelper" := by
  refine ⟨by decide, by decide⟩

/-- C9 amended: `convertAutoGenAgentToId` and `convertRasaAgentToId`
map their known external names to the four internal role ids or 'user'
and pass every name outside their own table through verbatim;
`RasaAdapter.getAgentIdByRole` maps its four known role names to the
role ids and sends every name outside its table to 'coordinator-1'
instead of passing it through.  Each function is characterised on every
input: its table rows, and all names outside its own table. -/
theorem agent_name_mapping :
    (∀ name : String,
      name ∉ ["UserProxyAgent", "ResearchAssistant", "PlanningAgent",
              "ExecutionAgent", "user"] →
      convertAutoGenAgentToId name = name) ∧
    (∀ name : String,
      name ∉ ["CoordinatorAgent", "ResearchAgent", "PlannerAgent",
              "ExecutionAgent", "user"] →
      convertRasaAgentToId name = name) ∧
    (∀ name : String,
      name ∉ ["coordinator", "researcher", "planner", "executor"] →
      getAgentIdByRole name = "coordinator-1") ∧
    convertAutoGenAgentToId "UserProxyAgent" = "coordinator-1" ∧
    convertAutoGenAgentToId "ResearchAssistant" = "researcher-1" ∧
    convertAutoGenAgentToId "PlanningAgent" = "planner-1" ∧
    convertAutoGenAgentToId "ExecutionAgent" = "executor-1" ∧
    convertAutoGenAgentToId "user" = "user" ∧
    convertRasaAgentToId "CoordinatorAgent" = "coordinator-1" ∧
    convertRasaAgentToId "ResearchAgent" = "researcher-1" ∧
    convertRasaAgentToId "PlannerAgent" = "planner-1" ∧
    convertRasaAgentToId "ExecutionAgent" = "executor-1" ∧
    convertRasaAgentToId "user" = "user" ∧
    getAgentIdByRole "coordinator" = "coordinator-1" ∧
    getAgentIdByRole "researcher" = "researcher-1" ∧
    getAgentIdByRole "planner" = "planner-1" ∧
    getAgentIdByRole "executor" = "executor-1" := by
  refine ⟨?_, ?_, ?_, by decide, by decide, by decide, by decide, by decide,
          by decide, by decide, by decide, by decide, by decide,
          by decide, by decide, by decide, by decide⟩
  · intro name h
    simp only [List.mem_cons, List.not_mem_nil, or_false, not_or] at h
    obtain ⟨a1, a2, a3, a4, a5⟩ := h
    simp [convertAutoGenAgentToId, a1, a2, a3, a4, a5]
  · intro name h
    simp only [List.mem_cons, List.not_mem_nil, or_false, not_or] at h
    obtain ⟨r1, r2, r3, r4, r5⟩ := h
    simp [convertRasaAgentToId, r1, r2, r3, r4, r5]
  · intro name h
    simp only [List.mem_cons, List.not_mem_nil, or_false, not_or] at h
    obtain ⟨q1, q2, q3, q4⟩ := h
    simp [getAgentIdByRole, q1, q2, q3, q4]

/-- C9 amended witness: names unmapped in one table but known to another
take each function's own default — 'CoordinatorAgent' passes through the
AutoGen converter verbatim, 'UserProxyAgent' passes through the Rasa
converter verbatim, and 'user' is defaulted by `getAgentIdByRole`. -/
theorem agent_name_mapping_witness :
    convertAutoGenAgentToId "CoordinatorAgent" = "CoordinatorAgent" ∧
    convertRasaAgentToId "UserProxyAgent" = "UserProxyAgent" ∧
    getAgentIdByRole "user" = "coordinator-1" ∧
    getAgentIdByRole "ExternalHelper" = "coordinator-1" :=
  ⟨agent_name_mapping.1 "CoordinatorAgent" (by decide),
   agent_name_mapping.2.1 "UserProxyAgent" (by decide),
   agent_name_mapping.2.2.1 "user" (by decide),
   agent_name_mapping.2.2.1 "ExternalHelper" (by decide)⟩

/-- The adapter state and the scheduled delays after `n` drops from a
fresh connection: the attempt counter saturates at 5 and the delay list
is the capped-backoff sequence, truncated at 5 entries. -/
theorem dropsFrom_initial (n : Nat) :
    dropsFrom initialReconnectState n =
      ({ reconnectAttempts := min n 5, maxReconnectAttempts := 5 },
       (List.range (min n 5)).map (fun k => min (1000 * 2 ^ (k + 1)) 30000)) := by
  induction n with
  | zero => rfl
  | succ n ih =>
      simp only [dropsFrom]
      rw [ih]
      by_cases h : n < 5
      · have h1 : min n 5 = n := by omega
        have h2 : min (n + 1) 5 = n + 1 := by omega
        simp [h1, h2, onCloseReconnect, h, List.range_succ]
      · have h1 : min n 5 = 5 := by omega
        have h2 : min (n + 1) 5 = 5 := by omega
        simp [h1, h2, onCloseReconnect]

/-- C8: on a push-channel drop the AutoGen adapter schedules a reconnect
with capped exponential backoff: the delay before attempt n (n = 1..5)
is min(1000·2^n, 30000) ms — concretely 2000, 4000, 8000, 16000,
30000 ms — and after the 5th attempt no further reconnect is scheduled,
however many further drops occur. -/
theorem reconnect_capped_backoff :
    (∀ n : Nat, (dropsFrom initialReconnectState n).2 =
        (List.range (min n 5)).map (fun k => min (1000 * 2 ^ (k + 1)) 30000)) ∧
    (dropsFrom initialReconnectState 5).2 = [2000, 4000, 8000, 16000, 30000] ∧
    (∀ n : Nat, dropsFrom initialReconnectState (5 + n) =
        ({ reconnectAttempts := 5, maxReconnectAttempts := 5 },
         [2000, 4000, 8000, 16000, 30000])) ∧
    onCloseReconnect { reconnectAttempts := 5, maxReconnectAttempts := 5 } = none := by
  refine ⟨?_, ?_, ?_, by decide⟩
  · intro n; rw [dropsFrom_initial]
  · rw [dropsFrom_initial]; decide
  · intro n
    rw [dropsFrom_initial]
    have h : min (5 + n) 5 = 5 := by omega
    rw [h]
    decide

/-- C2: on the native path, one `submitUserRequest` call appends to the
trace log exactly the eleven action labels received_request,
analyzing_request, research_started, research_completed,
planning_started, planning_completed, execution_started,
execution_completed, reviewing_solution, solution_approved,
response_delivered — in that order, with no omissions or reorderings —
whatever the input string and whatever the store already contains. -/
theorem native_trace_sequence (s : AgentState) (content : String)
    (hidle : s.processingRequest = false) :
    ((submitUserRequest s content).1).traces.map Trace.action =
      s.traces.map Trace.action ++
      ["received_request", "analyzing_request", "research_started",
       "research_completed", "planning_started", "planning_completed",
       "execution_started", "execution_completed", "reviewing_solution",
       "solution_approved", "response_delivered"] := by
  simp [submitUserRequest, submitUserRequestWith, hidle, nativeBody,
        simulateAgentCollaboration, Nat.add_assoc]

/-- C2 witness: the eleven labels of a run from the empty store. -/
theorem native_trace_sequence_witness :
    emptyState.processingRequest = false ∧
    ((submitUserRequest emptyState "hello").1).traces.map Trace.action =
      emptyState.traces.map Trace.action ++
      ["received_request", "analyzing_request", "research_started",
       "research_completed", "planning_started", "planning_completed",
       "execution_started", "execution_completed", "reviewing_solution",
       "solution_approved", "response_delivered"] :=
  ⟨rfl, native_trace_sequence emptyState "hello" rfl⟩

/-- C3: when the framework body throws, `submitUserRequest` catches the
exception, marks the stored request 'failed' with `"Error: " ++ msg` as
its result, clears the processing flag, and performs no rollback: the
messages, traces and tasks present at the moment of the throw all remain
in their collections unchanged. -/
theorem submitUserRequest_failure_no_rollback
    (body : AgentState → AgentState × Option String)
    (s s' : AgentState) (content msg : String)
    (hidle : s.processingRequest = false)
    (hbody : body (stateAfterAccept s content) = (s', some msg))
    (hfound : s'.userRequests.any (fun r => r.id = s.nextId) = true) :
    ((submitUserRequestWith body s content).1).messages = s'.messages ∧
    ((submitUserRequestWith body s content).1).traces = s'.traces ∧
    ((submitUserRequestWith body s content).1).tasks = s'.tasks ∧
    ((submitUserRequestWith body s content).1).processingRequest = false ∧
    ∃ r ∈ ((submitUserRequestWith body s content).1).userRequests,
      r.id = s.nextId ∧ r.status = ReqStatus.failed ∧
      r.result = some ("Error: " ++ msg) := by
  rw [submitUserRequestWith]
  rw [if_neg (by simp [hidle])]
  simp only [hbody]
  refine ⟨by simp, by simp, by simp, by simp, ?_⟩
  simp only [triggerUpdate_userRequests, markRequestFailed_userRequests]
  exact setFirstRequest_exists_updated s'.userRequests s.nextId ReqStatus.failed
    ("Error: " ++ msg) hfound

/-- C3 witness: a body that appends one message and throws, run from the
empty store; the appended message survives and the request is failed. -/
theorem submitUserRequest_failure_no_rollback_witness :
    emptyState.processingRequest = false ∧
    throwingBody (stateAfterAccept emptyState "hi") =
      (throwSite, some "AutoGen error: Unknown error") ∧
    throwSite.userRequests.any (fun r => r.id = emptyState.nextId) = true ∧
    ((submitUserRequestWith throwingBody emptyState "hi").1).messages =
      throwSite.messages :=
  ⟨rfl, rfl, by decide,
   (submitUserRequest_failure_no_rollback throwingBody emptyState throwSite "hi"
      "AutoGen error: Unknown error" rfl rfl (by decide)).1⟩

set_option maxHeartbeats 1000000 in
/-- C4: for every request, from every prior store state with the
uuid-freshness invariant, every AgentTask the run creates (fresh id, at
or above the counter) is created with status 'pending' and its status
history is exactly pending, then in-progress, then completed: no task
ever jumps from 'pending' straight to 'completed'.  The ghost
`statusLog` field records every value the status field takes. -/
theorem native_task_lifecycle (s : AgentState) (content : String)
    (hidle : s.processingRequest = false)
    (hfresh : FreshState s) :
    ∀ t ∈ ((submitUserRequest s content).1).tasks,
      s.nextId ≤ t.id →
      t.statusLog =
        [TaskStatus.pending, TaskStatus.inProgress, TaskStatus.completed] := by
  obtain ⟨-, hwft, -⟩ := hfresh
  have hsf : ∀ (rest : List AgentTask) (u : TaskUpdate) (k : Nat),
      setFirstTask (s.tasks ++ rest) (s.nextId + k) u =
        s.tasks ++ setFirstTask rest (s.nextId + k) u := by
    intro rest u k
    refine setFirstTask_append_of_forall_ne s.tasks rest (s.nextId + k) u ?_
    intro t ht
    have := hwft t ht
    omega
  intro t ht hle
  rw [submitUserRequest, submitUserRequestWith] at ht
  rw [if_neg (by simp [hidle])] at ht
  simp only [nativeBody] at ht
  simp only [markRequestCompleted_tasks, markRequestFailed_tasks,
             triggerUpdate_tasks] at ht
  simp only [simulateAgentCollaboration] at ht
  simp only [addMessage_fst_tasks, addMessage_fst_nextId,
             addTrace_fst_tasks, addTrace_fst_nextId,
             addTask_fst_tasks, addTask_fst_nextId, addTask_snd,
             updateTask_tasks, updateTask_nextId,
             stateAfterAccept_tasks, stateAfterAccept_nextId,
             Nat.add_assoc, Nat.reduceAdd] at ht
  simp only [hsf, setFirstTask, applyUpdate, Option.getD, List.append_assoc,
             List.nil_append, List.cons_append, List.singleton_append,
             add_right_inj, Nat.reduceEqDiff, eq_self_iff_true, ite_true,
             ite_false, reduceIte] at ht
  simp only [List.mem_append, List.mem_cons, List.not_mem_nil, or_false] at ht
  rcases ht with ht | rfl | rfl | rfl
  · exact absurd hle (by have := hwft t ht; omega)
  · rfl
  · rfl
  · rfl

/-- C4 witness: from the empty store on input 'hello', the research task
(id 4, at or above the counter) is in the final store with the full
pending/in-progress/completed history. -/
theorem native_task_lifecycle_witness :
    emptyState.processingRequest = false ∧
    FreshState emptyState ∧
    AgentTask.mk 4 "researcher-1" "Gather necessary information based on user query"
        TaskStatus.completed 4 (some 8) (some (researchResultsText "hello")) none
        [TaskStatus.pending, TaskStatus.inProgress, TaskStatus.completed] ∈
      ((submitUserRequest emptyState "hello").1).tasks ∧
    emptyState.nextId ≤
      (AgentTask.mk 4 "researcher-1" "Gather necessary information based on user query"
        TaskStatus.completed 4 (some 8) (some (researchResultsText "hello")) none
        [TaskStatus.pending, TaskStatus.inProgress, TaskStatus.completed]).id ∧
    (AgentTask.mk 4 "researcher-1" "Gather necessary information based on user query"
        TaskStatus.completed 4 (some 8) (some (researchResultsText "hello")) none
        [TaskStatus.pending, TaskStatus.inProgress, TaskStatus.completed]).statusLog =
      [TaskStatus.pending, TaskStatus.inProgress, TaskStatus.completed] :=
  ⟨rfl, ⟨by decide, by decide, by decide⟩, by decide, by decide,
   native_task_lifecycle emptyState "hello" rfl
     ⟨by decide, by decide, by decide⟩
     (AgentTask.mk 4 "researcher-1" "Gather necessary information based on user query"
        TaskStatus.completed 4 (some 8) (some (researchResultsText "hello")) none
        [TaskStatus.pending, TaskStatus.inProgress, TaskStatus.completed])
     (by decide) (by decide)⟩

set_option maxHeartbeats 1000000 in
/-- C6: for every request, from every prior store state with the
uuid-freshness invariant, a native-path `submitUserRequest` run (which
never throws) resolves with the request marked 'completed', its result
equal to the content of the most recent Message with recipient 'user'
and type 'response', and at least one such message in the store. -/
theorem native_completion (s : AgentState) (content : String)
    (hidle : s.processingRequest = false)
    (hfresh : FreshState s) :
    ∃ req : UserRequest,
      (submitUserRequest s content).2 = Except.ok req ∧
      req.status = ReqStatus.completed ∧
      ∃ m ∈ ((submitUserRequest s content).1).messages,
        m.to_ = "user" ∧ m.type = MessageType.response ∧
        req.result = some m.content ∧
        ∀ mx ∈ ((submitUserRequest s content).1).messages,
          mx.to_ = "user" → mx.type = MessageType.response →
          mx.timestamp ≤ m.timestamp := by
  obtain ⟨hwfm, -, hwfr⟩ := hfresh
  have hne : ∀ r ∈ s.userRequests, r.id ≠ s.nextId := fun r hr => by
    have := hwfr r hr
    omega
  have hmsgs : ((submitUserRequest s content).1).messages =
      s.messages ++
      [Message.mk (s.nextId + 1) "user" "coordinator-1" content (s.nextId + 1)
         MessageType.request,
       Message.mk (s.nextId + 5) "coordinator-1" "researcher-1"
         ("Please research the following query and gather relevant information: \"" ++
           content ++ "\"") (s.nextId + 5) MessageType.internal,
       Message.mk (s.nextId + 8) "researcher-1" "coordinator-1"
         (researchResultsText content) (s.nextId + 8) MessageType.internal,
       Message.mk (s.nextId + 10) "coordinator-1" "planner-1"
         ("Please create an execution plan based on this research: " ++
           researchResultsText content) (s.nextId + 10) MessageType.internal,
       Message.mk (s.nextId + 13) "planner-1" "coordinator-1" (planText content)
         (s.nextId + 13) MessageType.internal,
       Message.mk (s.nextId + 15) "coordinator-1" "executor-1"
         ("Please execute this plan and generate a final response: " ++ planText content)
         (s.nextId + 15) MessageType.internal,
       Message.mk (s.nextId + 18) "executor-1" "coordinator-1"
         (executionResultText content) (s.nextId + 18) MessageType.internal,
       Message.mk (s.nextId + 21) "coordinator-1" "executor-1"
         "Solution approved. Please deliver to user." (s.nextId + 21)
         MessageType.internal,
       Message.mk (s.nextId + 22) "executor-1" "user" (executionResultText content)
         (s.nextId + 22) MessageType.response] := by
    rw [submitUserRequest, submitUserRequestWith]
    rw [if_neg (by simp [hidle])]
    simp only [nativeBody]
    simp only [triggerUpdate_messages, markRequestCompleted_messages,
               markRequestFailed_messages]
    simp only [simulateAgentCollaboration]
    simp only [addMessage_fst_messages, addMessage_fst_nextId,
               addTrace_fst_messages, addTrace_fst_nextId,
               addTask_fst_messages, addTask_fst_nextId, addTask_snd,
               updateTask_messages, updateTask_nextId,
               stateAfterAccept_messages, stateAfterAccept_nextId,
               Nat.add_assoc, Nat.reduceAdd, List.append_assoc, List.nil_append,
               List.cons_append, List.singleton_append]
  have hfr : findFinalResponse (s.messages ++
      [Message.mk (s.nextId + 1) "user" "coordinator-1" content (s.nextId + 1)
         MessageType.request,
       Message.mk (s.nextId + 5) "coordinator-1" "researcher-1"
         ("Please research the following query and gather relevant information: \"" ++
           content ++ "\"") (s.nextId + 5) MessageType.internal,
       Message.mk (s.nextId + 8) "researcher-1" "coordinator-1"
         (researchResultsText content) (s.nextId + 8) MessageType.internal,
       Message.mk (s.nextId + 10) "coordinator-1" "planner-1"
         ("Please create an execution plan based on this research: " ++
           researchResultsText content) (s.nextId + 10) MessageType.internal,
       Message.mk (s.nextId + 13) "planner-1" "coordinator-1" (planText content)
         (s.nextId + 13) MessageType.internal,
       Message.mk (s.nextId + 15) "coordinator-1" "executor-1"
         ("Please execute this plan and generate a final response: " ++ planText content)
         (s.nextId + 15) MessageType.internal,
       Message.mk (s.nextId + 18) "executor-1" "coordinator-1"
         (executionResultText content) (s.nextId + 18) MessageType.internal,
       Message.mk (s.nextId + 21) "coordinator-1" "executor-1"
         "Solution approved. Please deliver to user." (s.nextId + 21)
         MessageType.internal,
       Message.mk (s.nextId + 22) "executor-1" "user" (executionResultText content)
         (s.nextId + 22) MessageType.response]) =
      some (Message.mk (s.nextId + 22) "executor-1" "user" (executionResultText content)
        (s.nextId + 22) MessageType.response) := by
    rw [findFinalResponse, List.filter_append]
    have hconc : List.filter isUserResponse
        [Message.mk (s.nextId + 1) "user" "coordinator-1" content (s.nextId + 1)
         MessageType.request,
       Message.mk (s.nextId + 5) "coordinator-1" "researcher-1"
         ("Please research the following query and gather relevant information: \"" ++
           content ++ "\"") (s.nextId + 5) MessageType.internal,
       Message.mk (s.nextId + 8) "researcher-1" "coordinator-1"
         (researchResultsText content) (s.nextId + 8) MessageType.internal,
       Message.mk (s.nextId + 10) "coordinator-1" "planner-1"
         ("Please create an execution plan based on this research: " ++
           researchResultsText content) (s.nextId + 10) MessageType.internal,
       Message.mk (s.nextId + 13) "planner-1" "coordinator-1" (planText content)
         (s.nextId + 13) MessageType.internal,
       Message.mk (s.nextId + 15) "coordinator-1" "executor-1"
         ("Please execute this plan and generate a final response: " ++ planText content)
         (s.nextId + 15) MessageType.internal,
       Message.mk (s.nextId + 18) "executor-1" "coordinator-1"
         (executionResultText content) (s.nextId + 18) MessageType.internal,
       Message.mk (s.nextId + 21) "coordinator-1" "executor-1"
         "Solution approved. Please deliver to user." (s.nextId + 21)
         MessageType.internal,
       Message.mk (s.nextId + 22) "executor-1" "user" (executionResultText content)
         (s.nextId + 22) MessageType.response] =
        [Message.mk (s.nextId + 22) "executor-1" "user" (executionResultText content)
        (s.nextId + 22) MessageType.response] := by
      simp [isUserResponse]
    rw [hconc]
    refine maxByTimestamp_append_last _ _ none ?_ ?_
    · intro x hx
      have := hwfm x (List.mem_filter.mp hx).1
      show x.timestamp < s.nextId + 22
      omega
    · intro a ha
      simp at ha
  refine ⟨UserRequest.mk s.nextId content s.nextId ReqStatus.completed
    (some (executionResultText content)), ?_, rfl, ?_⟩
  · rw [submitUserRequest, submitUserRequestWith]
    rw [if_neg (by simp [hidle])]
    simp only [nativeBody]
    simp only [triggerUpdate_userRequests, markRequestCompleted_userRequests,
               markRequestFailed_userRequests, markRequestCompleted_messages,
               markRequestFailed_messages, triggerUpdate_messages]
    simp only [simulateAgentCollaboration]
    simp only [addMessage_fst_messages, addMessage_fst_userRequests,
               addMessage_fst_nextId,
               addTrace_fst_messages, addTrace_fst_userRequests, addTrace_fst_nextId,
               addTask_fst_messages, addTask_fst_userRequests, addTask_fst_nextId,
               addTask_snd,
               updateTask_messages, updateTask_userRequests, updateTask_nextId,
               stateAfterAccept_messages, stateAfterAccept_userRequests,
               stateAfterAccept_nextId,
               Nat.add_assoc, Nat.reduceAdd, List.append_assoc, List.nil_append,
               List.cons_append, List.singleton_append]
    rw [hfr]
    simp only [Option.map]
    rw [setFirstRequest_append_of_forall_ne s.userRequests _ s.nextId
        ReqStatus.completed _ hne]
    simp only [setFirstRequest, eq_self_iff_true, ite_true]
    rw [find?_id_append_of_forall_ne s.userRequests _ s.nextId hne]
    simp only [List.find?, Option.getD, eq_self_iff_true, decide_True]
  · refine ⟨Message.mk (s.nextId + 22) "executor-1" "user" (executionResultText content)
        (s.nextId + 22) MessageType.response, ?_, rfl, rfl, rfl, ?_⟩
    · rw [hmsgs]
      simp
    · intro mx hmx h1 h2
      rw [hmsgs] at hmx
      simp only [List.mem_append, List.mem_cons, List.not_mem_nil, or_false] at hmx
      rcases hmx with hmx | rfl | rfl | rfl | rfl | rfl | rfl | rfl | rfl | rfl
      · have := hwfm mx hmx
        show mx.timestamp ≤ s.nextId + 22
        omega
      all_goals simp_all

/-- C6 witness: the completion facts instantiated at the empty store on
the input 'hello'. -/
theorem native_completion_witness :
    emptyState.processingRequest = false ∧
    FreshState emptyState ∧
    (∃ req : UserRequest,
      (submitUserRequest emptyState "hello").2 = Except.ok req ∧
      req.status = ReqStatus.completed ∧
      ∃ m ∈ ((submitUserRequest emptyState "hello").1).messages,
        m.to_ = "user" ∧ m.type = MessageType.response ∧
        req.result = some m.content ∧
        ∀ mx ∈ ((submitUserRequest emptyState "hello").1).messages,
          mx.to_ = "user" → mx.type = MessageType.response →
          mx.timestamp ≤ m.timestamp) :=
  ⟨rfl, ⟨by decide, by decide, by decide⟩,
   native_completion emptyState "hello" rfl ⟨by decide, by decide, by decide⟩⟩

end AgentOrchestra
